import Mathlib

/-!
Shallow embedding of the HttpReport Azure Function
(src/HttpReport/__init__.py): multipart extraction, Excel score reading,
Word-template filling, PDF merging, blob upload with SAS, and the HTTP
orchestrator, together with proofs about the claims of the specification.

Python values are modelled as follows: machine floats become an
inductive wrapping rationals plus a NaN value; bytes payloads become a
typed content inductive (a spreadsheet, a Word document, a PDF page
list, raw bytes); Python dicts become association lists with in-place
overwrite on duplicate keys (matching dict insertion semantics); code
that raises returns Except.
-/

namespace HttpReport

/-- A Python float: either NaN or a finite rational. -/
inductive PyNum where
  | nan
  | fin (q : ℚ)
deriving DecidableEq, Repr

/-- A spreadsheet cell as surfaced by pandas: a float (possibly NaN),
a string, or Python None. -/
inductive Cell where
  | num (n : PyNum)
  | text (s : String)
  | blank
deriving DecidableEq, Repr

/-- A pandas column label: a string header or some non-string label. -/
inductive ColName where
  | str (s : String)
  | other (id : ℕ)
deriving DecidableEq, Repr

/-- The "Summary Dashboard" DataFrame: column labels and rectangular rows
(cells aligned positionally with the column list). -/
structure Worksheet where
  columns : List ColName
  rows : List (List Cell)
deriving DecidableEq, Repr

/-- A Word document as python-docx exposes it to this code: a list of
tables (each a list of rows, each row a list of cell texts) plus opaque
non-table content that the filler never touches. -/
structure DocxDoc where
  tables : List (List (List String))
  otherContent : ℕ
deriving DecidableEq, Repr

/-- A typed model of an uploaded byte payload. Parsing libraries succeed
exactly when the payload has the matching shape; pdfFile carries its page
list (pages identified by opaque numerals). emptyBytes models the empty
byte string, which is falsy in Python. -/
inductive Content where
  | xlsxFile (sheets : List (String × Worksheet))
  | docxFile (d : DocxDoc)
  | pdfFile (pages : List ℕ)
  | emptyBytes
  | rawBytes (bs : List ℕ)
deriving DecidableEq, Repr

/-- One decoded multipart part: its Content-Disposition header text
(empty string when the header is absent) and its content. -/
structure Part where
  cd : String
  content : Content
deriving DecidableEq, Repr

/-- The per-field value stored by _parse_multipart:
a filename and content pair. -/
structure FilePart where
  filename : Option String
  content : Content
deriving DecidableEq, Repr

/-- Errors raised by the pipeline (Python exceptions). -/
inductive PipeErr where
  | malformedContentType
  | multipartDecodeError
  | missingWorksheet
  | excelReadError
  | indexError
  | missingColumn
  | missingTable
  | cellIndexError
  | docxReadError
  | pdfReadError
  | storageNotConfigured
  | storageUnavailable
deriving DecidableEq, Repr

/-- str(e) for each modelled exception. Messages raised by this file's own
ValueError calls are verbatim from the source; messages of library
exceptions are modelled. -/
def errMsg : PipeErr → String
  | .malformedContentType => "Content-Type must be multipart/form-data"
  | .multipartDecodeError => "Unable to decode multipart body"
  | .missingWorksheet => "Worksheet named Summary Dashboard not found"
  | .excelReadError => "Unable to read Excel file"
  | .indexError => "list index out of range"
  | .missingColumn => "Could not find 'Category' column in Summary Dashboard."
  | .missingTable => "Word template has no tables. Expected Operations Review table as first table."
  | .cellIndexError => "list index out of range"
  | .docxReadError => "Unable to read Word document"
  | .pdfReadError => "Unable to parse PDF"
  | .storageNotConfigured => "AZURE_STORAGE_CONNECTION_STRING not configured."
  | .storageUnavailable => "storage unavailable"

/-- Python dict assignment d[k] = v: overwrite in place if the key exists,
append otherwise. -/
def dictInsert {V : Type} : List (String × V) → String → V → List (String × V)
  | [], k, v => [(k, v)]
  | (k0, v0) :: t, k, v =>
    if k0 = k then (k, v) :: t else (k0, v0) :: dictInsert t k v

/-- Python dict.get: first (unique) binding of the key, if any. -/
def dictGet {V : Type} : List (String × V) → String → Option V
  | [], _ => none
  | (k0, v0) :: t, k => if k0 = k then some v0 else dictGet t k

/-- dict(pairs): left-to-right insertion, later duplicates overwrite. -/
def pyDict {V : Type} (pairs : List (String × V)) : List (String × V) :=
  pairs.foldl (fun d kv => dictInsert d kv.1 kv.2) []

/-- Whether the first list is a prefix of the second. -/
def isPrefixList : List Char → List Char → Bool
  | [], _ => true
  | _ :: _, [] => false
  | p :: ps, c :: cs => p = c && isPrefixList ps cs

/-- Whether pat occurs as a contiguous sublist of s. -/
def listContains (s pat : List Char) : Bool :=
  match s with
  | [] => isPrefixList pat []
  | c :: rest => isPrefixList pat (c :: rest) || listContains rest pat

/-- Python substring test: pat in s. -/
def containsSub (s pat : String) : Bool :=
  listContains s.data pat.data

/-- Python s.lower(), character by character. -/
def pyLower (s : String) : String :=
  String.mk (s.data.map Char.toLower)

/-- Python s.strip(): remove leading and trailing whitespace. -/
def pyStrip (s : String) : String :=
  String.mk (((s.data.dropWhile Char.isWhitespace).reverse.dropWhile
    Char.isWhitespace).reverse)

/-- Python s.startswith(pre). -/
def strStartsWith (s pre : String) : Bool :=
  isPrefixList pre.data s.data

/-- Python s.split(sep) for a one-character separator. -/
def splitCharAux (sep : Char) : List Char → List Char → List String
  | [], cur => [String.mk cur.reverse]
  | c :: rest, cur =>
    if c = sep then String.mk cur.reverse :: splitCharAux sep rest []
    else splitCharAux sep rest (c :: cur)

/-- Python s.split(sep) for a one-character separator. -/
def splitChar (sep : Char) (s : String) : List String :=
  splitCharAux sep s.data []

/-- Python s.strip(double-quote): remove leading and trailing quote
characters. -/
def stripQuotes (s : String) : String :=
  String.mk (((s.data.dropWhile (fun c => c = '"')).reverse.dropWhile
    (fun c => c = '"')).reverse)

/-- Everything after the first equals sign in s. -/
def afterFirstEqAux : List Char → Option (List Char)
  | [] => none
  | c :: rest => if c = '=' then some rest else afterFirstEqAux rest

/-- Python s.split(eq-sign, 1)[1]: everything after the first equals sign.
Only called on tokens known to contain one (guarded by startswith, where
Python would otherwise raise IndexError). -/
def afterFirstEq (s : String) : String :=
  match afterFirstEqAux s.data with
  | some rest => String.mk rest
  | none => ""

/-- Python or on optional strings: the left operand unless it is falsy
(None or the empty string). -/
def pyOrStr (a b : Option String) : Option String :=
  match a with
  | some s => if s = "" then b else some s
  | none => b

/-- Scan of the Content-Disposition tokens (split on semicolons): each
token is stripped; name= and filename= assignments, later tokens
overwriting earlier ones, exactly as the source loop does. -/
def dispositionScan : List String → Option String × Option String →
    Option String × Option String
  | [], acc => acc
  | tok :: rest, acc =>
    let t := pyStrip tok
    let acc1 := if strStartsWith t "name=" then
      (some (stripQuotes (afterFirstEq t)), acc.2) else acc
    let acc2 := if strStartsWith t "filename=" then
      (acc1.1, some (stripQuotes (afterFirstEq t))) else acc1
    dispositionScan rest acc2

/-- The (name, filename) parameters extracted from a part's
Content-Disposition header. -/
def dispositionParams (cd : String) : Option String × Option String :=
  dispositionScan (splitChar ';' cd) (none, none)

/-- The extracted field name when it is truthy (Python: if name).
none when the name parameter is absent or empty. -/
def partFieldName (p : Part) : Option String :=
  match (dispositionParams p.cd).1 with
  | some n => if n = "" then none else some n
  | none => none

/-- One iteration of the files-accumulation loop of _parse_multipart. -/
def partStep (files : List (String × FilePart)) (p : Part) :
    List (String × FilePart) :=
  match partFieldName p with
  | some n => dictInsert files n ⟨(dispositionParams p.cd).2, p.content⟩
  | none => files

/-- The files dict built from the decoded multipart parts. -/
def parseParts (ps : List Part) : List (String × FilePart) :=
  ps.foldl partStep []

/-- A request body: either bytes that the MultipartDecoder decodes into
parts, or bytes on which the decoder raises. -/
inductive Body where
  | formData (parts : List Part)
  | garbage
deriving DecidableEq, Repr

/-- An incoming HTTP request: the two header lookups the code performs
(Content-Type, then lowercase content-type) and the body. -/
structure HttpRequest where
  ctHeader : Option String
  ctHeaderLower : Option String
  body : Body
deriving DecidableEq, Repr

/-- Models _parse_multipart: requires a Content-Type declaring
multipart/form-data, then decodes the body into the files dict. -/
def parseMultipart (req : HttpRequest) : Except PipeErr (List (String × FilePart)) :=
  match pyOrStr req.ctHeader req.ctHeaderLower with
  | none => .error .malformedContentType
  | some ct =>
    if containsSub ct "multipart/form-data" then
      match req.body with
      | .formData ps => .ok (parseParts ps)
      | .garbage => .error .multipartDecodeError
    else .error .malformedContentType

/-- Decimal expansion of a fraction r/d (0 <= r < d), at most fuel digits,
stopping when the remainder reaches zero. -/
def fracDigits : ℕ → ℕ → ℕ → String
  | _, _, 0 => ""
  | r, d, Nat.succ fuel =>
    if r = 0 then ""
    else toString (r * 10 / d) ++ fracDigits (r * 10 % d) d fuel

/-- Python str of a finite float, modelled as a decimal rendering of the
rational with at least one fractional digit (str(5.0) is 5.0). -/
def pyStrOfRat (q : ℚ) : String :=
  let sgn := if q < 0 then "-" else ""
  let n := q.num.natAbs
  let d := q.den
  let frac := if n % d = 0 then "0" else fracDigits (n % d) d 17
  sgn ++ toString (n / d) ++ "." ++ frac

/-- Python str applied to a cell value. -/
def pyStr : Cell → String
  | .text s => s
  | .num .nan => "nan"
  | .num (.fin q) => pyStrOfRat q
  | .blank => "None"

/-- Numeric value of a digit list. -/
def digitsVal (cs : List Char) : ℕ :=
  cs.foldl (fun a c => a * 10 + (c.toNat - 48)) 0

/-- The rational denoted by a sign, integer digits and fraction digits. -/
def ratOfDigits (neg : Bool) (ints fracs : List Char) : ℚ :=
  let v := mkRat (digitsVal ints * 10 ^ fracs.length + digitsVal fracs) (10 ^ fracs.length)
  if neg then -v else v

/-- Python float(string), modelled on plain decimal literals: optional
surrounding whitespace, optional sign, digits with an optional decimal
point (at least one digit overall). Anything else fails (exponent and
inf/nan spellings are outside the model). -/
def parseFloatStr (s : String) : Option PyNum :=
  let cs0 := (pyStrip s).data
  let p := match cs0 with
    | c :: rest => if c = '-' then (true, rest)
                   else if c = '+' then (false, rest)
                   else (false, cs0)
    | [] => (false, ([] : List Char))
  let ints := p.2.takeWhile Char.isDigit
  let rest1 := p.2.dropWhile Char.isDigit
  match rest1 with
  | [] => if ints.isEmpty then none else some (.fin (ratOfDigits p.1 ints []))
  | c :: rest2 =>
    if c = '.' then
      let fracs := rest2.takeWhile Char.isDigit
      let rest3 := rest2.dropWhile Char.isDigit
      if rest3.isEmpty then
        if ints.isEmpty && fracs.isEmpty then none
        else some (.fin (ratOfDigits p.1 ints fracs))
      else none
    else none

/-- to_num / float(v) on a cell: floats pass through (NaN included),
strings are parsed, None raises (becomes failure). -/
def pyFloat : Cell → Option PyNum
  | .num n => some n
  | .text s => parseFloatStr s
  | .blank => none

/-- pandas isna on a cell: NaN and None are missing. -/
def isna : Cell → Bool
  | .num .nan => true
  | .blank => true
  | _ => false

/-- One column of the cols_map comprehension: string-labelled columns map
their normalized (stripped, lowercased) header text to the original
header text, with dict overwrite on collisions. -/
def colsMapStep (m : List (String × String)) (c : ColName) : List (String × String) :=
  match c with
  | .str s => dictInsert m (pyLower (pyStrip s)) s
  | .other _ => m

/-- cols_map: normalized header text mapped to the original header text,
string-labelled columns only, built left to right. -/
def colsMap (cols : List ColName) : List (String × String) :=
  cols.foldl colsMapStep []

/-- list(df.columns)[1]: the second column label, or IndexError. -/
def secondColumn (cols : List ColName) : Except PipeErr ColName :=
  match cols[1]? with
  | some c => .ok c
  | none => .error .indexError

/-- Lines 40-44 of the source: category column lookup and average-score
column resolution with the positional fallback. The fallback is evaluated
(and can raise IndexError) before the category presence check, exactly as
in the source, where avg_col is computed on line 42 and the cat_col check
is on line 43. pyOrStr models the Python or (an empty-string lookup
result would also fall back). -/
def resolveCols (cols : List ColName) : Except PipeErr (Option String × ColName) :=
  let cmap := colsMap cols
  let catCol := dictGet cmap "category"
  match pyOrStr (dictGet cmap "average score") none with
  | some s => .ok (catCol, .str s)
  | none =>
    match secondColumn cols with
    | .ok c => .ok (catCol, c)
    | .error e => .error e

/-- Cell of a row at a given column label: positional lookup of the label
in the column list, missing cells padded with NaN as pandas does. The
none branch is unreachable for labels returned by resolveCols. -/
def cellAt (cols : List ColName) (row : List Cell) (c : ColName) : Cell :=
  match cols.findIdx? (fun x => x = c) with
  | some i => (row.get? i).getD (.num .nan)
  | none => .num .nan

/-- The row loop of _read_scores_from_excel: skip blank category names;
a name containing overall (case-insensitive) sets the overall value when
its score parses (the last such row in order wins) and is excluded from
the categories; otherwise a parseable score appends a category row and an
unparseable one is silently skipped. -/
def processRows (cols : List ColName) (catCol : String) (avgCol : ColName) :
    List (List Cell) → List String × List PyNum × Option PyNum
  | [] => ([], [], none)
  | r :: rest =>
    let res := processRows cols catCol avgCol rest
    let name := pyStrip (pyStr (cellAt cols r (ColName.str catCol)))
    let val := pyFloat (cellAt cols r avgCol)
    if name = "" then res
    else if containsSub (pyLower name) "overall" then
      (res.1, res.2.1,
        match res.2.2 with
        | some x => some x
        | none => val)
    else
      match val with
      | some v => (name :: res.1, v :: res.2.1, res.2.2)
      | none => res

/-- Models _read_scores_from_excel on the already-loaded worksheet: resolve the
columns, require the category column (Python: if not cat_col), drop rows
whose category cell is missing (dropna), then run the row loop. -/
def readScores (ws : Worksheet) :
    Except PipeErr (List String × List PyNum × Option PyNum) :=
  match resolveCols ws.columns with
  | .error e => .error e
  | .ok (catOpt, avgCol) =>
    match catOpt with
    | none => .error .missingColumn
    | some catCol =>
      if catCol = "" then .error .missingColumn
      else
        let kept := ws.rows.filter
          (fun r => !(isna (cellAt ws.columns r (ColName.str catCol))))
        .ok (processRows ws.columns catCol avgCol kept)

/-- Models _read_scores_from_excel from the uploaded bytes: pandas read_excel
with sheet_name Summary Dashboard fails unless the payload is a workbook
containing that sheet. -/
def readScoresFromExcel (c : Content) :
    Except PipeErr (List String × List PyNum × Option PyNum) :=
  match c with
  | .xlsxFile sheets =>
    match dictGet sheets "Summary Dashboard" with
    | some ws => readScores ws
    | none => .error .missingWorksheet
  | _ => .error .excelReadError

/-- Two-digit zero-padded rendering of a value below 100. -/
def pad2 (m : ℕ) : String :=
  if m < 10 then "0" ++ toString m else toString m

/-- Python format .2f: two decimal places. Rounding of a finite value is
modelled as round-half-away-from-zero on the magnitude (the binary-float
tie behaviour of CPython is outside the model); NaN prints as nan. -/
def fmt2 : PyNum → String
  | .nan => "nan"
  | .fin q =>
    let n := q.num.natAbs
    let d := q.den
    let h := (n * 100 * 2 + d) / (2 * d)
    (if q < 0 then "-" else "") ++ toString (h / 100) ++ "." ++ pad2 (h % 100)

/-- norm: the score mapping re-keyed by stripped, lowercased key. -/
def normScoreMap (m : List (String × PyNum)) : List (String × PyNum) :=
  m.foldl (fun acc kv => dictInsert acc (pyLower (pyStrip kv.1)) kv.2) []

/-- One body-row iteration of _fill_word_scores: read row.cells[0]
(IndexError on a row with no cells), normalize it, and when it is a key
of the mapping overwrite row.cells[1] (IndexError on a one-cell row) with
the formatted score; otherwise leave the row untouched. -/
def fillRow (norm : List (String × PyNum)) :
    List String → Except PipeErr (List String)
  | [] => .error .cellIndexError
  | c0 :: rest =>
    match dictGet norm (pyLower (pyStrip c0)) with
    | none => .ok (c0 :: rest)
    | some v =>
      match rest with
      | [] => .error .cellIndexError
      | _ :: tail => .ok (c0 :: fmt2 v :: tail)

/-- The row loop over t.rows[1:], propagating the first raised error. -/
def fillRows (norm : List (String × PyNum)) :
    List (List String) → Except PipeErr (List (List String))
  | [] => .ok []
  | r :: rs =>
    match fillRow norm r with
    | .error e => .error e
    | .ok r2 =>
      match fillRows norm rs with
      | .error e => .error e
      | .ok rs2 => .ok (r2 :: rs2)

/-- Models _fill_word_scores on the parsed document: require at least one table,
operate on the first table only, skip its row 0, fill the remaining rows,
and leave every other table and all non-table content unchanged. -/
def fillWordScores (d : DocxDoc) (m : List (String × PyNum)) :
    Except PipeErr DocxDoc :=
  match d.tables with
  | [] => .error .missingTable
  | t0 :: ts =>
    match t0 with
    | [] => .ok ⟨[] :: ts, d.otherContent⟩
    | hdr :: body =>
      match fillRows (normScoreMap m) body with
      | .error e => .error e
      | .ok body2 => .ok ⟨(hdr :: body2) :: ts, d.otherContent⟩

/-- Models _fill_word_scores from the uploaded bytes: Document() fails unless
the payload is a Word document. -/
def fillWordContent (c : Content) (m : List (String × PyNum)) :
    Except PipeErr DocxDoc :=
  match c with
  | .docxFile d => fillWordScores d m
  | _ => .error .docxReadError

/-- Serialized .docx bytes as doc.save produces them: the parsed document
content together with the date_time stamp that the zip container embeds
in every entry. python-docx saves the package through
zipfile.ZipFile.writestr, which stamps each entry with the current time,
so the returned bytes depend on the save time. -/
structure DocxBytes where
  doc : DocxDoc
  zipStamp : ℕ
deriving DecidableEq, Repr

/-- Models doc.save: serialize the document, stamping the zip entries
with the current time. -/
def saveDocx (now : ℕ) (d : DocxDoc) : DocxBytes :=
  ⟨d, now⟩

/-- Models _fill_word_scores end to end at the byte level: Document()
parses the template bytes (the input's zip stamp is not part of the
parsed content), the first table is filled, and doc.save serializes the
result stamped with the current time. -/
def fillWordScoresFull (now : ℕ) (tb : DocxBytes)
    (m : List (String × PyNum)) : Except PipeErr DocxBytes :=
  match fillWordScores tb.doc m with
  | .error e => .error e
  | .ok d2 => .ok (saveDocx now d2)

/-- Python truthiness of a byte payload: only the empty byte string is
falsy. -/
def contentTruthy : Content → Bool
  | .emptyBytes => false
  | _ => true

/-- PdfReader: succeeds exactly on PDF payloads, yielding the page list. -/
def pdfPages (c : Content) : Except PipeErr (List ℕ) :=
  match c with
  | .pdfFile ps => .ok ps
  | _ => .error .pdfReadError

/-- Models _merge_pdfs: append cover pages when the cover bytes are truthy, then
every scorecard page, then narrative pages when truthy, in that order. -/
def mergePdfs (cover : Option Content) (scorecard : Content)
    (narrative : Option Content) : Except PipeErr (List ℕ) :=
  let coverRes : Except PipeErr (List ℕ) :=
    match cover with
    | some c => if contentTruthy c then pdfPages c else .ok []
    | none => .ok []
  match coverRes with
  | .error e => .error e
  | .ok coverPs =>
    match pdfPages scorecard with
    | .error e => .error e
    | .ok scorePs =>
      let narrRes : Except PipeErr (List ℕ) :=
        match narrative with
        | some c => if contentTruthy c then pdfPages c else .ok []
        | none => .ok []
      match narrRes with
      | .error e => .error e
      | .ok narrPs => .ok (coverPs ++ scorePs ++ narrPs)

/-- Models _build_scorecard_pdf. Modelled: the reportlab rendering is abstracted
to a one-page document with an opaque page identity; no claim inspects
the rendered page content. -/
def buildScorecardPdf (cats : List String) (scores : List PyNum)
    (overall : Option PyNum) : List ℕ :=
  let _ := cats
  let _ := scores
  let _ := overall
  [0]

instance instDecEqExcept {ε α : Type} [DecidableEq ε] [DecidableEq α] :
    DecidableEq (Except ε α) := fun a b =>
  match a, b with
  | .error e, .error f =>
    if h : e = f then .isTrue (congrArg Except.error h)
    else .isFalse (fun hh => h (Except.error.inj hh))
  | .error _, .ok _ => .isFalse (fun hh => Except.noConfusion hh)
  | .ok _, .error _ => .isFalse (fun hh => Except.noConfusion hh)
  | .ok x, .ok y =>
    if h : x = y then .isTrue (congrArg Except.ok h)
    else .isFalse (fun hh => h (Except.ok.inj hh))

/-- Outcome of the create_container() call against the storage service. -/
inductive ProvisionErr where
  | containerAlreadyExists
  | other (code : ℕ)
deriving DecidableEq, Repr

/-- The storage backend as _upload_with_sas observes it: the configured
connection string and container, the outcome the service would give to
create_container and to upload_blob, and the account/SAS material used
to build the returned URL. -/
structure StorageEnv where
  connStr : String
  container : String
  createOutcome : Except ProvisionErr Unit
  uploadOutcome : Except PipeErr Unit
  accountName : String
  accountKey : String
  sasToken : String
deriving DecidableEq, Repr

/-- Models _upload_with_sas: fail when the connection string is unconfigured;
call create_container inside try/except Exception: pass, so its outcome
is discarded whatever it is; upload the blob (propagating upload
failures); return the signed URL for the single blob. -/
def uploadWithSas {α : Type} (env : StorageEnv) (name : String) (data : α) :
    Except PipeErr String :=
  if env.connStr = "" then .error .storageNotConfigured
  else
    let _discarded := env.createOutcome
    let _ := data
    match env.uploadOutcome with
    | .error e => .error e
    | .ok _ => .ok ("https://" ++ env.accountName ++
        ".blob.core.windows.net/" ++ env.container ++ "/" ++ name ++
        "?" ++ env.sasToken)

/-- The ambient state main depends on besides the request: the storage
backend and the UTC timestamp string used in the artifact names. -/
structure MainEnv where
  storage : StorageEnv
  nowStamp : String
deriving DecidableEq, Repr

/-- An outgoing HTTP response (status code and body). -/
structure HttpResponse where
  status : ℕ
  respBody : String
deriving DecidableEq, Repr

/-- json.dumps of the success payload. -/
def jsonBody (pdfUrl docxUrl : String) : String :=
  "\x7b\"pdf_url\": \"" ++ pdfUrl ++ "\", \"narrative_docx_url\": \"" ++
    docxUrl ++ "\"\x7d"

/-- The body of main after multipart parsing: the required-part check
(which returns 400 without raising), then scores, scorecard, filled
template, merge, and the two independent uploads. -/
def mainAfterParse (env : MainEnv) (files : List (String × FilePart)) :
    Except PipeErr HttpResponse :=
  match dictGet files "excel", dictGet files "word_template" with
  | some excel, some wordT =>
    let coverB := (dictGet files "cover_pdf").map (fun f => f.content)
    match readScoresFromExcel excel.content with
    | .error e => .error e
    | .ok (cats, scores, overall) =>
      let scoreMap := pyDict (cats.zip scores)
      let scorePages := buildScorecardPdf cats scores overall
      match fillWordContent wordT.content scoreMap with
      | .error e => .error e
      | .ok filled =>
        let narrB := (dictGet files "narrative_pdf").map (fun f => f.content)
        match mergePdfs coverB (Content.pdfFile scorePages) narrB with
        | .error e => .error e
        | .ok finalPdf =>
          match uploadWithSas env.storage
              ("CJ_Report_" ++ env.nowStamp ++ ".pdf") finalPdf with
          | .error e => .error e
          | .ok pdfUrl =>
            match uploadWithSas env.storage
                ("CJ_Narrative_" ++ env.nowStamp ++ ".docx") filled with
            | .error e => .error e
            | .ok docxUrl => .ok ⟨200, jsonBody pdfUrl docxUrl⟩
  | _, _ => .ok ⟨400, "Missing 'excel' or 'word_template'"⟩

/-- The try block of main. -/
def mainTry (env : MainEnv) (req : HttpRequest) : Except PipeErr HttpResponse :=
  match parseMultipart req with
  | .error e => .error e
  | .ok files => mainAfterParse env files

/-- main: the whole pipeline runs inside one try/except that turns every
raised exception into a 500 response carrying str(e). -/
def main (env : MainEnv) (req : HttpRequest) : HttpResponse :=
  match mainTry env req with
  | .ok resp => resp
  | .error e => ⟨500, errMsg e⟩

theorem dictGet_dictInsert_self {V : Type} (m : List (String × V)) (k : String) (v : V) :
    dictGet (dictInsert m k v) k = some v := by
  induction m with
  | nil => simp [dictInsert, dictGet]
  | cons kv t ih =>
    obtain ⟨k0, v0⟩ := kv
    by_cases h : k0 = k
    · simp [dictInsert, dictGet, h]
    · simp [dictInsert, dictGet, h, ih]

theorem dictGet_dictInsert_ne {V : Type} (m : List (String × V)) (k k2 : String)
    (v : V) (h : k2 ≠ k) : dictGet (dictInsert m k v) k2 = dictGet m k2 := by
  have h2 : k ≠ k2 := Ne.symm h
  induction m with
  | nil => simp [dictInsert, dictGet, h2]
  | cons kv t ih =>
    obtain ⟨k0, v0⟩ := kv
    by_cases h0 : k0 = k
    · subst h0
      simp [dictInsert, dictGet, h2]
    · simp [dictInsert, dictGet, h0, ih]

theorem colsMapAux_norm (cols : List ColName) :
    ∀ (m : List (String × String)),
      (∀ k v, dictGet m k = some v → pyLower (pyStrip v) = k) →
      ∀ k v, dictGet (cols.foldl colsMapStep m) k = some v →
        pyLower (pyStrip v) = k := by
  induction cols with
  | nil => intro m hm k v hv; exact hm k v hv
  | cons c rest ih =>
    intro m hm k v hv
    refine ih (colsMapStep m c) ?_ k v hv
    cases c with
    | str s =>
      intro k3 v3 hg
      simp only [colsMapStep] at hg
      by_cases hk : k3 = pyLower (pyStrip s)
      · subst hk
        rw [dictGet_dictInsert_self] at hg
        injection hg with hg
        subst hg
        rfl
      · rw [dictGet_dictInsert_ne _ _ _ _ hk] at hg
        exact hm k3 v3 hg
    | other i => exact hm

theorem colsMap_get_norm (cols : List ColName) (k v : String)
    (h : dictGet (colsMap cols) k = some v) : pyLower (pyStrip v) = k :=
  colsMapAux_norm cols [] (by intro k2 v2 hv; simp [dictGet] at hv) k v h

/-- C9: when the Summary Dashboard worksheet has fewer than two columns
and no average score column, the positional fallback raises IndexError
before the category presence check runs, so the reader fails with an
out-of-range indexing error even when a category column is present. -/
theorem C9_fallback_index_error (cols : List ColName) (rows : List (List Cell))
    (havg : dictGet (colsMap cols) "average score" = none)
    (hlen : cols.length < 2) :
    readScores ⟨cols, rows⟩ = .error .indexError := by
  have h1 : cols[1]? = none := List.getElem?_eq_none (Nat.lt_succ_iff.mp hlen)
  simp [readScores, resolveCols, havg, pyOrStr, secondColumn, h1]

/-- C9 witness: a one-column sheet whose only column is Category still
fails with IndexError. -/
theorem C9_fallback_index_error_witness :
    readScores ⟨[ColName.str "Category"], []⟩ = .error .indexError :=
  C9_fallback_index_error [ColName.str "Category"] [] (by decide) (by decide)

/-- C5 counterexample: a sheet lacking a category column (single column
Foo) fails with IndexError, not with the MissingColumn error the claim
requires. -/
theorem C5_counterexample :
    readScores ⟨[ColName.str "Foo"], []⟩ = .error .indexError ∧
    PipeErr.indexError ≠ PipeErr.missingColumn := by
  exact ⟨by decide, by decide⟩

/-- C5 amended: provided the positional fallback cannot raise (the sheet
has an average score column or at least two columns), a missing category
column fails with MissingColumn; the score column is the one labelled
average score (case-insensitive, trimmed) when present, otherwise the
second column positionally. -/
theorem C5_column_resolution (cols : List ColName) (rows : List (List Cell)) :
    ((dictGet (colsMap cols) "average score" ≠ none ∨ 2 ≤ cols.length) →
      dictGet (colsMap cols) "category" = none →
      readScores ⟨cols, rows⟩ = .error .missingColumn) ∧
    (∀ s, dictGet (colsMap cols) "average score" = some s →
      resolveCols cols = .ok (dictGet (colsMap cols) "category", ColName.str s)) ∧
    (∀ c, dictGet (colsMap cols) "average score" = none → cols[1]? = some c →
      resolveCols cols = .ok (dictGet (colsMap cols) "category", c)) := by
  have havgne : ∀ s, dictGet (colsMap cols) "average score" = some s → s ≠ "" := by
    intro s hs hse
    have hnorm := colsMap_get_norm cols "average score" s hs
    rw [hse] at hnorm
    exact absurd hnorm (by decide)
  refine ⟨?_, ?_, ?_⟩
  · intro havg hcat
    rcases havg with havg | havg
    · cases hg : dictGet (colsMap cols) "average score" with
      | none => exact absurd hg havg
      | some s =>
        have hne := havgne s hg
        simp [readScores, resolveCols, hg, pyOrStr, hne, hcat]
    · cases hg : dictGet (colsMap cols) "average score" with
      | none =>
        have hc : cols[1]? = some cols[1] :=
          List.getElem?_eq_getElem (show 1 < cols.length from havg)
        simp [readScores, resolveCols, hg, pyOrStr, secondColumn, hc, hcat]
      | some s =>
        have hne := havgne s hg
        simp [readScores, resolveCols, hg, pyOrStr, hne, hcat]
  · intro s hg
    have hne := havgne s hg
    simp [resolveCols, hg, pyOrStr, hne]
  · intro c hg hc
    simp [resolveCols, hg, pyOrStr, secondColumn, hc]

/-- C5 witness: a two-column sheet with no category column fails with
MissingColumn. -/
theorem C5_column_resolution_witness :
    readScores ⟨[ColName.str "A", ColName.str "B"], []⟩ = .error .missingColumn :=
  (C5_column_resolution [ColName.str "A", ColName.str "B"] []).1
    (Or.inr (by decide)) (by decide)

/-- C1 counterexample: a request with no Content-Type header fails with
the MalformedRequest error, but the response status is 500, not the 400
the claim requires. -/
theorem C1_counterexample :
    main ⟨⟨"cs", "reports", Except.ok (), Except.ok (), "acct", "key", "sas"⟩,
        "20250101-000000"⟩ ⟨none, none, Body.formData []⟩ =
      ⟨500, "Content-Type must be multipart/form-data"⟩ ∧
    (500 : ℕ) ≠ 400 := by
  exact ⟨by decide, by decide⟩

/-- C1 amended: a missing or non-multipart Content-Type, or a body that
cannot be decoded as multipart, makes the pipeline fail with the
MalformedRequest error, and the catch-all handler returns it with HTTP
status 500 (only a missing required part yields 400). -/
theorem C1_malformed_request_is_500 (env : MainEnv) (req : HttpRequest)
    (h : pyOrStr req.ctHeader req.ctHeaderLower = none
       ∨ (∀ s, pyOrStr req.ctHeader req.ctHeaderLower = some s →
           containsSub s "multipart/form-data" = false)
       ∨ req.body = Body.garbage) :
    (main env req).status = 500 ∧
    ((main env req).respBody = errMsg .malformedContentType ∨
     (main env req).respBody = errMsg .multipartDecodeError) := by
  have hp : parseMultipart req = .error .malformedContentType ∨
      parseMultipart req = .error .multipartDecodeError := by
    rcases h with h | h | h
    · exact Or.inl (by simp [parseMultipart, h])
    · cases hct : pyOrStr req.ctHeader req.ctHeaderLower with
      | none => exact Or.inl (by simp [parseMultipart, hct])
      | some s => exact Or.inl (by simp [parseMultipart, hct, h s hct])
    · cases hct : pyOrStr req.ctHeader req.ctHeaderLower with
      | none => exact Or.inl (by simp [parseMultipart, hct])
      | some s =>
        cases hcs : containsSub s "multipart/form-data" with
        | false => exact Or.inl (by simp [parseMultipart, hct, hcs])
        | true => exact Or.inr (by simp [parseMultipart, hct, hcs, h])
  rcases hp with hp | hp
  · constructor
    · simp [main, mainTry, hp]
    · exact Or.inl (by simp [main, mainTry, hp])
  · constructor
    · simp [main, mainTry, hp]
    · exact Or.inr (by simp [main, mainTry, hp])

/-- C1 witness: the amended statement at a concrete request carrying no
Content-Type header. -/
theorem C1_malformed_request_is_500_witness :
    (main ⟨⟨"cs", "reports", Except.ok (), Except.ok (), "acct", "key", "sas"⟩,
        "20250101-000000"⟩ ⟨none, some "text/plain", Body.formData []⟩).status = 500 ∧
    ((main ⟨⟨"cs", "reports", Except.ok (), Except.ok (), "acct", "key", "sas"⟩,
        "20250101-000000"⟩ ⟨none, some "text/plain", Body.formData []⟩).respBody =
      errMsg .malformedContentType ∨
     (main ⟨⟨"cs", "reports", Except.ok (), Except.ok (), "acct", "key", "sas"⟩,
        "20250101-000000"⟩ ⟨none, some "text/plain", Body.formData []⟩).respBody =
      errMsg .multipartDecodeError) :=
  C1_malformed_request_is_500 _ _
    (Or.inr (Or.inl (by intro s hs; injection hs with hs; subst hs; decide)))

/-- C2 counterexample: a provisioning failure that is not
container-already-exists (an opaque service error 403) is not surfaced:
the publish call still succeeds and returns the signed URL. -/
theorem C2_counterexample :
    uploadWithSas ⟨"cs", "reports", Except.error (ProvisionErr.other 403),
        Except.ok (), "acct", "key", "sas"⟩ "report.pdf" (0 : ℕ) =
      .ok "https://acct.blob.core.windows.net/reports/report.pdf?sas" := by
  decide

/-- C2 amended: the provisioning step treats the absence of a
pre-existing container as success, and every other provisioning failure
is suppressed as well (try/except Exception: pass): the publish result
never depends on the create-container outcome, and with a configured
connection string and a successful upload it returns the signed URL
whatever provisioning did. -/
theorem C2_provisioning_suppressed {α : Type} (connStr container : String)
    (c1 c2 : Except ProvisionErr Unit) (up : Except PipeErr Unit)
    (an ak sas name : String) (data : α) :
    uploadWithSas ⟨connStr, container, c1, up, an, ak, sas⟩ name data =
      uploadWithSas ⟨connStr, container, c2, up, an, ak, sas⟩ name data ∧
    (connStr ≠ "" → up = .ok () →
      uploadWithSas ⟨connStr, container, c1, up, an, ak, sas⟩ name data =
        .ok ("https://" ++ an ++ ".blob.core.windows.net/" ++ container ++
          "/" ++ name ++ "?" ++ sas)) := by
  constructor
  · rfl
  · intro hcs hup
    subst hup
    simp [uploadWithSas, hcs]

/-- C2 witness: the amended statement at a concrete environment whose
provisioning call reports the container as already existing. -/
theorem C2_provisioning_suppressed_witness :
    uploadWithSas ⟨"cs", "reports",
        Except.error ProvisionErr.containerAlreadyExists,
        Except.ok (), "acct", "key", "sas"⟩ "a.docx" (1 : ℕ) =
      .ok "https://acct.blob.core.windows.net/reports/a.docx?sas" :=
  (C2_provisioning_suppressed "cs" "reports"
      (Except.error ProvisionErr.containerAlreadyExists)
      (Except.ok ()) (Except.ok ()) "acct" "key" "sas" "a.docx" (1 : ℕ)).2
    (by decide) rfl

/-- C6: the merged document is always cover pages (when provided) first,
then every scorecard page, then narrative pages (when provided) last,
with no reordering and no deduplication; in particular a 2-page cover,
1-page scorecard and 3-page narrative merge to exactly those 6 pages in
order. -/
theorem C6_merge_page_order :
    (mergePdfs (some (Content.pdfFile [10, 11])) (Content.pdfFile [20])
        (some (Content.pdfFile [30, 31, 32])) = .ok [10, 11, 20, 30, 31, 32]) ∧
    (∀ (c n : Option (List ℕ)) (s : List ℕ),
      mergePdfs (c.map Content.pdfFile) (Content.pdfFile s)
          (n.map Content.pdfFile) =
        .ok (c.getD [] ++ s ++ n.getD [])) := by
  constructor
  · decide
  · intro c n s
    cases c <;> cases n <;> rfl

theorem processRows_no_overall (cols : List ColName) (catCol : String)
    (avgCol : ColName) (rows : List (List Cell)) :
    ∀ name ∈ (processRows cols catCol avgCol rows).1,
      containsSub (pyLower name) "overall" = false := by
  induction rows with
  | nil => intro name hn; simp [processRows] at hn
  | cons r rest ih =>
    intro name hn
    simp only [processRows] at hn
    by_cases h1 : pyStrip (pyStr (cellAt cols r (ColName.str catCol))) = ""
    · rw [if_pos h1] at hn
      exact ih name hn
    · rw [if_neg h1] at hn
      cases h2 : containsSub (pyLower (pyStrip (pyStr (cellAt cols r
          (ColName.str catCol))))) "overall" with
      | true =>
        simp only [h2, if_true] at hn
        exact ih name hn
      | false =>
        simp only [h2, Bool.false_eq_true, if_false] at hn
        cases h3 : pyFloat (cellAt cols r avgCol) with
        | some v =>
          rw [h3] at hn
          rcases List.mem_cons.mp hn with hn | hn
          · subst hn; exact h2
          · exact ih name hn
        | none =>
          rw [h3] at hn
          exact ih name hn

/-- C3 counterexample: on the worksheet of the claim the reader returns
the category texts with their original casing, Cleanliness and Staff,
not the lowercased cleanliness and staff the claim states. -/
theorem C3_counterexample :
    readScores ⟨[ColName.str "Category", ColName.str "Average Score"],
        [[Cell.text "Cleanliness", Cell.num (PyNum.fin (mkRat 9 2))],
         [Cell.text "Staff", Cell.num (PyNum.fin (mkRat 19 5))],
         [Cell.text "Overall Score", Cell.num (PyNum.fin (mkRat 41 10))]]⟩ =
      .ok (["Cleanliness", "Staff"],
           [PyNum.fin (mkRat 9 2), PyNum.fin (mkRat 19 5)],
           some (PyNum.fin (mkRat 41 10))) ∧
    (["Cleanliness", "Staff"] : List String) ≠ ["cleanliness", "staff"] := by
  exact ⟨by decide, by decide⟩

/-- C3 amended: on the claim's worksheet the reader returns the rows
(Cleanliness, 4.5) and (Staff, 3.8) with original casing and overall 4.1,
the overall row excluded; and in general no returned category text
contains overall, case-insensitively. -/
theorem C3_overall_excluded :
    (readScores ⟨[ColName.str "Category", ColName.str "Average Score"],
        [[Cell.text "Cleanliness", Cell.num (PyNum.fin (mkRat 9 2))],
         [Cell.text "Staff", Cell.num (PyNum.fin (mkRat 19 5))],
         [Cell.text "Overall Score", Cell.num (PyNum.fin (mkRat 41 10))]]⟩ =
      .ok (["Cleanliness", "Staff"],
           [PyNum.fin (mkRat 9 2), PyNum.fin (mkRat 19 5)],
           some (PyNum.fin (mkRat 41 10)))) ∧
    (∀ (ws : Worksheet) (cats : List String) (scores : List PyNum)
        (ov : Option PyNum),
      readScores ws = .ok (cats, scores, ov) →
      ∀ name ∈ cats, containsSub (pyLower name) "overall" = false) := by
  constructor
  · decide
  · intro ws cats scores ov h name hn
    rcases hres : resolveCols ws.columns with e | ⟨catOpt, avgCol⟩
    · simp [readScores, hres] at h
    · cases catOpt with
      | none => simp [readScores, hres] at h
      | some catCol =>
        by_cases hcc : catCol = ""
        · simp [readScores, hres, hcc] at h
        · simp only [readScores, hres, if_neg hcc] at h
          injection h with h
          have hcats : (processRows ws.columns catCol avgCol
              (ws.rows.filter (fun r => !(isna (cellAt ws.columns r
                (ColName.str catCol)))))).1 = cats := by
            rw [h]
          rw [← hcats] at hn
          exact processRows_no_overall ws.columns catCol avgCol _ name hn

/-- C3 witness: the general exclusion applied to the concrete worksheet
at the returned category Staff. -/
theorem C3_overall_excluded_witness :
    containsSub (pyLower "Staff") "overall" = false :=
  C3_overall_excluded.2
    ⟨[ColName.str "Category", ColName.str "Average Score"],
      [[Cell.text "Cleanliness", Cell.num (PyNum.fin (mkRat 9 2))],
       [Cell.text "Staff", Cell.num (PyNum.fin (mkRat 19 5))],
       [Cell.text "Overall Score", Cell.num (PyNum.fin (mkRat 41 10))]]⟩
    ["Cleanliness", "Staff"]
    [PyNum.fin (mkRat 9 2), PyNum.fin (mkRat 19 5)]
    (some (PyNum.fin (mkRat 41 10))) (by decide) "Staff" (by decide)

theorem processRows_skip (cols : List ColName) (catCol : String)
    (avgCol : ColName) (row : List Cell)
    (hname : pyStrip (pyStr (cellAt cols row (ColName.str catCol))) ≠ "")
    (hover : containsSub (pyLower (pyStrip (pyStr (cellAt cols row
      (ColName.str catCol))))) "overall" = false)
    (hval : pyFloat (cellAt cols row avgCol) = none) :
    ∀ (pre suf : List (List Cell)),
      processRows cols catCol avgCol (pre ++ row :: suf) =
        processRows cols catCol avgCol (pre ++ suf) := by
  intro pre suf
  induction pre with
  | nil => simp [processRows, hname, hover, hval]
  | cons r rs ih =>
    simp only [List.cons_append, processRows, List.append_eq]
    rw [ih]

/-- C7: a row whose category text is non-blank and free of overall but
whose score cell does not parse as a number is silently omitted: the
reader's entire result on a sheet containing the row equals its result
on the same sheet without the row, so no error is raised on account of
that cell. -/
theorem C7_unparseable_score_skipped (cols : List ColName) (catCol : String)
    (avgCol : ColName) (pre suf : List (List Cell)) (row : List Cell)
    (hres : resolveCols cols = .ok (some catCol, avgCol))
    (hname : pyStrip (pyStr (cellAt cols row (ColName.str catCol))) ≠ "")
    (hover : containsSub (pyLower (pyStrip (pyStr (cellAt cols row
      (ColName.str catCol))))) "overall" = false)
    (hval : pyFloat (cellAt cols row avgCol) = none) :
    readScores ⟨cols, pre ++ row :: suf⟩ = readScores ⟨cols, pre ++ suf⟩ := by
  by_cases hcc : catCol = ""
  · simp [readScores, hres, hcc]
  · simp only [readScores, hres, if_neg hcc]
    congr 1
    rw [List.filter_append, List.filter_append, List.filter_cons]
    by_cases hk : (!(isna (cellAt cols row (ColName.str catCol)))) = true
    · rw [if_pos hk]
      exact processRows_skip cols catCol avgCol row hname hover hval _ _
    · rw [if_neg hk]

/-- C7 witness: a concrete sheet where the Staff row carries the
unparseable score N/A; removing the row leaves the result unchanged. -/
theorem C7_unparseable_score_skipped_witness :
    readScores ⟨[ColName.str "Category", ColName.str "Average Score"],
        [[Cell.text "Staff", Cell.text "N/A"],
         [Cell.text "Clean", Cell.text "4.5"]]⟩ =
      readScores ⟨[ColName.str "Category", ColName.str "Average Score"],
        [[Cell.text "Clean", Cell.text "4.5"]]⟩ :=
  C7_unparseable_score_skipped
    [ColName.str "Category", ColName.str "Average Score"]
    "Category" (ColName.str "Average Score") []
    [[Cell.text "Clean", Cell.text "4.5"]]
    [Cell.text "Staff", Cell.text "N/A"]
    (by decide) (by decide) (by decide) (by decide)

theorem parseParts_tail_preserve (n : String) (e : FilePart) :
    ∀ (suf : List Part) (acc : List (String × FilePart)),
      (∀ q ∈ suf, partFieldName q ≠ some n) → dictGet acc n = some e →
      dictGet (suf.foldl partStep acc) n = some e := by
  intro suf
  induction suf with
  | nil => intro acc h hacc; exact hacc
  | cons q rest ih =>
    intro acc h hacc
    simp only [List.foldl_cons]
    refine ih (partStep acc q) ?_ ?_
    · intro q2 hq2
      exact h q2 (List.mem_cons_of_mem q hq2)
    · cases hq : partFieldName q with
      | none => simpa [partStep, hq] using hacc
      | some n2 =>
        have hne : n ≠ n2 := by
          intro he
          subst he
          exact (h q (List.mem_cons_self q rest)) hq
        simp only [partStep, hq]
        rw [dictGet_dictInsert_ne _ _ _ _ hne]
        exact hacc

/-- C10: a part whose Content-Disposition carries no name parameter is
omitted from the returned mapping, and when several parts share the same
field name the mapping retains exactly the last such part's filename and
content. -/
theorem C10_multipart_fields :
    (∀ (pre suf : List Part) (p : Part), (dispositionParams p.cd).1 = none →
      parseParts (pre ++ p :: suf) = parseParts (pre ++ suf)) ∧
    (∀ (pre suf : List Part) (p : Part) (n : String),
      partFieldName p = some n →
      (∀ q ∈ suf, partFieldName q ≠ some n) →
      dictGet (parseParts (pre ++ p :: suf)) n =
        some ⟨(dispositionParams p.cd).2, p.content⟩) := by
  constructor
  · intro pre suf p hp
    have hn : partFieldName p = none := by simp [partFieldName, hp]
    simp [parseParts, List.foldl_append, List.foldl_cons, partStep, hn]
  · intro pre suf p n hp hsuf
    simp only [parseParts, List.foldl_append, List.foldl_cons]
    refine parseParts_tail_preserve n _ suf _ hsuf ?_
    simp only [partStep, hp]
    exact dictGet_dictInsert_self _ n _

/-- C10 witness: two parts named excel; the mapping retains the second
part's filename and content. -/
theorem C10_multipart_fields_witness :
    dictGet (parseParts
      [⟨"form-data; name=\"excel\"; filename=\"a.xlsx\"", Content.rawBytes [1]⟩,
       ⟨"form-data; name=\"excel\"; filename=\"c.xlsx\"", Content.rawBytes [3]⟩])
      "excel" = some ⟨some "c.xlsx", Content.rawBytes [3]⟩ := by
  have h := C10_multipart_fields.2
    [⟨"form-data; name=\"excel\"; filename=\"a.xlsx\"", Content.rawBytes [1]⟩] []
    ⟨"form-data; name=\"excel\"; filename=\"c.xlsx\"", Content.rawBytes [3]⟩
    "excel" (by decide) (by intro q hq; exact absurd hq (List.not_mem_nil q))
  simpa using h

theorem fillRow_idem (norm : List (String × PyNum)) (r r2 : List String)
    (h : fillRow norm r = .ok r2) : fillRow norm r2 = .ok r2 := by
  cases r with
  | nil => simp [fillRow] at h
  | cons c0 rest =>
    cases hg : dictGet norm (pyLower (pyStrip c0)) with
    | none =>
      simp only [fillRow, hg] at h
      injection h with h
      subst h
      simp [fillRow, hg]
    | some v =>
      cases rest with
      | nil => simp [fillRow, hg] at h
      | cons x tail =>
        simp only [fillRow, hg] at h
        injection h with h
        subst h
        simp [fillRow, hg]

theorem fillRows_idem (norm : List (String × PyNum)) :
    ∀ (rs rs2 : List (List String)), fillRows norm rs = .ok rs2 →
      fillRows norm rs2 = .ok rs2 := by
  intro rs
  induction rs with
  | nil =>
    intro rs2 h
    simp only [fillRows] at h
    injection h with h
    subst h
    simp [fillRows]
  | cons r rest ih =>
    intro rs2 h
    simp only [fillRows] at h
    cases h1 : fillRow norm r with
    | error e => rw [h1] at h; cases h
    | ok r2 =>
      rw [h1] at h
      cases h2 : fillRows norm rest with
      | error e => rw [h2] at h; cases h
      | ok rest2 =>
        rw [h2] at h
        injection h with h
        subst h
        simp only [fillRows, fillRow_idem norm r r2 h1, ih rest2 h2]

theorem fillWordScores_refill (d : DocxDoc) (m : List (String × PyNum))
    (d2 : DocxDoc) (h : fillWordScores d m = .ok d2) :
    fillWordScores d2 m = .ok d2 := by
  obtain ⟨tables, oc⟩ := d
  cases tables with
  | nil => simp [fillWordScores] at h
  | cons t0 ts =>
    cases t0 with
    | nil =>
      simp only [fillWordScores] at h
      injection h with h
      subst h
      simp [fillWordScores]
    | cons hdr body =>
      simp only [fillWordScores] at h
      cases hb : fillRows (normScoreMap m) body with
      | error e => rw [hb] at h; cases h
      | ok body2 =>
        rw [hb] at h
        injection h with h
        subst h
        simp only [fillWordScores, fillRows_idem (normScoreMap m) body body2 hb]

/-- C4 counterexample: filling a concrete template with the save clock at
0 and refilling its output with the save clock at 1 reproduces the same
document content but different bytes: the zip stamp embeds the save
time, so the refill is not byte-identical and the output does embed a
generation timestamp. -/
theorem C4_counterexample :
    fillWordScoresFull 0
        ⟨⟨[[["Category", "Score"], ["Cleanliness", "tbd"]]], 7⟩, 5⟩
        [("Cleanliness", PyNum.fin (mkRat 9 2))] =
      .ok ⟨⟨[[["Category", "Score"], ["Cleanliness", "4.50"]]], 7⟩, 0⟩ ∧
    fillWordScoresFull 1
        ⟨⟨[[["Category", "Score"], ["Cleanliness", "4.50"]]], 7⟩, 0⟩
        [("Cleanliness", PyNum.fin (mkRat 9 2))] =
      .ok ⟨⟨[[["Category", "Score"], ["Cleanliness", "4.50"]]], 7⟩, 1⟩ ∧
    (⟨⟨[[["Category", "Score"], ["Cleanliness", "4.50"]]], 7⟩, 0⟩ : DocxBytes) ≠
      ⟨⟨[[["Category", "Score"], ["Cleanliness", "4.50"]]], 7⟩, 1⟩ := by
  exact ⟨by decide, by decide, by decide⟩

/-- C4 amended: whenever filling a template succeeds, refilling its own
output with the same mapping succeeds and reproduces the same document
content, stamped with the new save time; the output embeds the save time
as its zip stamp, so the refill is byte-identical to the original output
exactly when both saves carry the same stamp. -/
theorem C4_fill_content_idempotent (now1 now2 : ℕ) (tb : DocxBytes)
    (m : List (String × PyNum)) (b1 : DocxBytes)
    (h : fillWordScoresFull now1 tb m = .ok b1) :
    fillWordScoresFull now2 b1 m = .ok ⟨b1.doc, now2⟩ ∧
    b1.zipStamp = now1 ∧
    (now2 = now1 → fillWordScoresFull now2 b1 m = .ok b1) := by
  cases hf : fillWordScores tb.doc m with
  | error e => simp [fillWordScoresFull, hf] at h
  | ok d2 =>
    simp only [fillWordScoresFull, hf, saveDocx] at h
    injection h with h
    subst h
    have h2 := fillWordScores_refill tb.doc m d2 hf
    refine ⟨?_, rfl, ?_⟩
    · simp [fillWordScoresFull, h2, saveDocx]
    · intro he
      subst he
      simp [fillWordScoresFull, h2, saveDocx]

/-- C4 witness: the amended statement at a concrete template, first save
at stamp 2, refill saved at stamp 3. -/
theorem C4_fill_content_idempotent_witness :
    fillWordScoresFull 3
        ⟨⟨[[["Category", "Score"], ["Cleanliness", "4.50"], ["Notes", "keep"]]],
          7⟩, 2⟩
        [("Cleanliness", PyNum.fin (mkRat 9 2))] =
      .ok ⟨⟨[[["Category", "Score"], ["Cleanliness", "4.50"], ["Notes", "keep"]]],
          7⟩, 3⟩ ∧
    (2 : ℕ) = 2 ∧
    ((3 : ℕ) = 2 → fillWordScoresFull 3
        ⟨⟨[[["Category", "Score"], ["Cleanliness", "4.50"], ["Notes", "keep"]]],
          7⟩, 2⟩
        [("Cleanliness", PyNum.fin (mkRat 9 2))] =
      .ok ⟨⟨[[["Category", "Score"], ["Cleanliness", "4.50"], ["Notes", "keep"]]],
          7⟩, 2⟩) :=
  C4_fill_content_idempotent 2 3
    ⟨⟨[[["Category", "Score"], ["Cleanliness", "tbd"], ["Notes", "keep"]]], 7⟩, 9⟩
    [("Cleanliness", PyNum.fin (mkRat 9 2))]
    ⟨⟨[[["Category", "Score"], ["Cleanliness", "4.50"], ["Notes", "keep"]]], 7⟩, 2⟩
    (by decide)

theorem fillRows_forall2 (norm : List (String × PyNum)) :
    ∀ (body body2 : List (List String)), fillRows norm body = .ok body2 →
      List.Forall₂ (fun r r2 =>
        (dictGet norm (pyLower (pyStrip (r.headD ""))) = none → r2 = r) ∧
        (∀ v, dictGet norm (pyLower (pyStrip (r.headD ""))) = some v →
          ∃ c0 c1 rest, r = c0 :: c1 :: rest ∧ r2 = c0 :: fmt2 v :: rest))
        body body2 := by
  intro body
  induction body with
  | nil =>
    intro body2 h
    simp only [fillRows] at h
    injection h with h
    subst h
    exact List.Forall₂.nil
  | cons r rest ih =>
    intro body2 h
    simp only [fillRows] at h
    cases h1 : fillRow norm r with
    | error e => rw [h1] at h; cases h
    | ok r2 =>
      rw [h1] at h
      cases h2 : fillRows norm rest with
      | error e => rw [h2] at h; cases h
      | ok rest2 =>
        rw [h2] at h
        injection h with h
        subst h
        refine List.Forall₂.cons ?_ (ih rest2 h2)
        cases r with
        | nil => simp [fillRow] at h1
        | cons c0 cs =>
          cases hg : dictGet norm (pyLower (pyStrip c0)) with
          | none =>
            simp only [fillRow, hg] at h1
            injection h1 with h1
            subst h1
            constructor
            · intro _; rfl
            · intro v hv
              rw [List.headD_cons] at hv
              rw [hv] at hg
              cases hg
          | some v =>
            cases cs with
            | nil => simp [fillRow, hg] at h1
            | cons c1 tail =>
              simp only [fillRow, hg] at h1
              injection h1 with h1
              subst h1
              constructor
              · intro hnone
                rw [List.headD_cons] at hnone
                rw [hnone] at hg
                cases hg
              · intro v2 hv2
                rw [List.headD_cons] at hv2
                rw [hv2] at hg
                injection hg with hg
                subst hg
                exact ⟨c0, c1, tail, rfl, rfl⟩

/-- C8: a template with no table fails with MissingTable; otherwise the
filler touches only the first table and only its rows after row index 0:
a filled document keeps the header row, every other table and the
non-table content unchanged, and each body row is either untouched (when
its normalized first-cell text is not a key of the normalized mapping) or
has exactly its second cell overwritten with the matching score formatted
to two decimal places. -/
theorem C8_fill_behavior :
    (∀ (m : List (String × PyNum)) (oc : ℕ),
      fillWordScores ⟨[], oc⟩ m = .error .missingTable) ∧
    (∀ (m : List (String × PyNum)) (oc : ℕ) (hdr : List String)
        (body : List (List String)) (ts : List (List (List String)))
        (d2 : DocxDoc),
      fillWordScores ⟨(hdr :: body) :: ts, oc⟩ m = .ok d2 →
      ∃ body2, d2 = ⟨(hdr :: body2) :: ts, oc⟩ ∧
        List.Forall₂ (fun r r2 =>
          (dictGet (normScoreMap m) (pyLower (pyStrip (r.headD ""))) = none →
            r2 = r) ∧
          (∀ v, dictGet (normScoreMap m) (pyLower (pyStrip (r.headD ""))) =
              some v →
            ∃ c0 c1 rest, r = c0 :: c1 :: rest ∧ r2 = c0 :: fmt2 v :: rest))
          body body2) := by
  constructor
  · intro m oc
    simp [fillWordScores]
  · intro m oc hdr body ts d2 h
    simp only [fillWordScores] at h
    cases hb : fillRows (normScoreMap m) body with
    | error e => rw [hb] at h; cases h
    | ok body2 =>
      rw [hb] at h
      injection h with h
      subst h
      exact ⟨body2, rfl, fillRows_forall2 (normScoreMap m) body body2 hb⟩

/-- C8 witness: the behaviour at a concrete template whose first table
has a header, a matching row and a non-matching row. -/
theorem C8_fill_behavior_witness :
    ∃ body2,
      (⟨[[["Category", "Score"], ["Cleanliness", "4.50"], ["Notes", "keep"]]],
        7⟩ : DocxDoc) = ⟨(["Category", "Score"] :: body2) :: [], 7⟩ ∧
      List.Forall₂ (fun r r2 =>
        (dictGet (normScoreMap [("Cleanliness", PyNum.fin (mkRat 9 2))])
            (pyLower (pyStrip (r.headD ""))) = none → r2 = r) ∧
        (∀ v, dictGet (normScoreMap [("Cleanliness", PyNum.fin (mkRat 9 2))])
            (pyLower (pyStrip (r.headD ""))) = some v →
          ∃ c0 c1 rest, r = c0 :: c1 :: rest ∧ r2 = c0 :: fmt2 v :: rest))
        [["Cleanliness", "tbd"], ["Notes", "keep"]] body2 :=
  C8_fill_behavior.2 [("Cleanliness", PyNum.fin (mkRat 9 2))] 7
    ["Category", "Score"] [["Cleanliness", "tbd"], ["Notes", "keep"]] []
    ⟨[[["Category", "Score"], ["Cleanliness", "4.50"], ["Notes", "keep"]]], 7⟩
    (by decide)

end HttpReport
